import Mathlib

/-
  Verification development for the simplemdns repository (Go).

  The Go source is shallowly embedded: pure control flow becomes Lean
  functions, OS and network effects (socket binds, multicast group joins,
  interface writes, channel reads) become explicit environment data that a
  run of the embedded function consumes, and Go channels become explicit
  bounded-queue values.  Every definition mirrors the corresponding Go
  function from the repository sources.
-/

/-- A Go channel value, modelled as a bounded queue: the buffered elements,
the buffer capacity, and whether the channel has been closed.  A Go
`select`-with-`default` send is the non-blocking `trySend` below. -/
structure Chan (T : Type) where
  buf : List T
  cap : Nat
  closed : Bool
deriving Repr, DecidableEq

/-- Non-blocking send on a channel, mirroring Go's
`select { case ch <- msg: default: }`: enqueue when buffer space remains,
drop otherwise.  (The broadcaster only ever sends on channels it has not
closed, so the closed case is unreachable there; it is kept inert.) -/
def trySend {T : Type} (ch : Chan T) (msg : T) : Chan T :=
  if ch.closed then ch
  else if ch.buf.length < ch.cap then { ch with buf := ch.buf ++ [msg] } else ch

/-- The publish/subscribe hub of the repository (unnamed source part_000,
`type broadcaster[T any]`): a subscriber list and a closed flag.  The
`sync.Mutex` serialises the three operations; each operation is modelled as
one atomic state transformation. -/
structure broadcaster (T : Type) where
  subs : List (Chan T)
  closed : Bool
deriving Repr, DecidableEq

/-- Embeds `(*broadcaster[T]).subscribe` (part_000 lines 17-30): when the hub
is closed, build a fresh unbuffered channel, close it, and return it without
registering it; otherwise register and return a fresh open channel with
buffer depth 1.  Returns the updated hub together with the channel handed to
the caller. -/
def broadcaster.subscribe {T : Type} (b : broadcaster T) : broadcaster T × Chan T :=
  if b.closed then
    (b, { buf := [], cap := 0, closed := true })
  else
    let ch : Chan T := { buf := [], cap := 1, closed := false }
    ({ b with subs := b.subs ++ [ch] }, ch)

/-- Embeds `(*broadcaster[T]).broadcast` (part_000 lines 32-46): when closed,
return without touching anything; otherwise attempt a non-blocking enqueue to
every registered subscriber channel. -/
def broadcaster.broadcast {T : Type} (b : broadcaster T) (msg : T) : broadcaster T :=
  if b.closed then b
  else { b with subs := b.subs.map (fun ch => trySend ch msg) }

/-- Embeds `(*broadcaster[T]).close` (part_000 lines 48-61): idempotent;
closes every subscriber channel, clears the subscriber list, and marks the
hub closed.  The closed channels leave the hub state with the cleared list. -/
def broadcaster.close {T : Type} (b : broadcaster T) : broadcaster T :=
  if b.closed then b
  else { subs := [], closed := true }

/-- The resource-record header fields QueryFirst inspects
(`ans.Header().Name`, `.Rrtype`, `.Class` of github.com/miekg/dns). -/
structure RRHeader where
  Name : String
  Rrtype : Nat
  Class : Nat
deriving Repr, DecidableEq

/-- A resource record, reduced to the header QueryFirst matches on. -/
structure RR where
  Header : RRHeader
deriving Repr, DecidableEq

/-- A DNS question (`dns.Question`): name, type, class. -/
structure Question where
  Name : String
  Qtype : Nat
  Qclass : Nat
deriving Repr, DecidableEq

/-- A decoded DNS message, reduced to the answer section QueryFirst scans. -/
structure Msg where
  Answer : List RR
deriving Repr, DecidableEq

/-- The matching condition of `(*client).QueryFirst` (client.go lines
161-163): exact name equality, exact type, exact class. -/
def rrMatches (q : Question) (rr : RR) : Bool :=
  rr.Header.Name == q.Name && rr.Header.Rrtype == q.Qtype && rr.Header.Class == q.Qclass

/-- The inner `for _, ans := range resp.Answer` loop of QueryFirst: the first
record of the answer section satisfying the match condition, scanning in
section order. -/
def firstMatch (q : Question) : List RR → Option RR
  | [] => none
  | ans :: rest => if rrMatches q ans then some ans else firstMatch q rest

/-- One event observed by QueryFirst's `select` loop, in order: a message
delivered on its subscriber channel, the channel found closed, or the
context's done channel firing (with `ctx.Err()`). -/
inductive QEvent where
  | msg (m : Msg)
  | closed
  | ctxDone (e : String)
deriving Repr, DecidableEq

/-- The outcome of QueryFirst's wait loop.  `pending` means the (finite)
event trace ran out with the loop still blocked on its `select`. -/
inductive QResult where
  | answer (rr : RR)
  | clientClosed
  | ctxErr (e : String)
  | pending
deriving Repr, DecidableEq

/-- Embeds the `for { select { ... } }` loop of `(*client).QueryFirst`
(client.go lines 153-170) over an explicit trace of channel events: a
delivered message is scanned for the first exact match (returned if found,
otherwise loop again); a closed channel yields the "client closed" error;
the context firing yields `ctx.Err()`. -/
def queryFirstLoop (q : Question) : List QEvent → QResult
  | [] => QResult.pending
  | QEvent.msg m :: rest =>
    match firstMatch q m.Answer with
    | some rr => QResult.answer rr
    | none => queryFirstLoop q rest
  | QEvent.closed :: _ => QResult.clientClosed
  | QEvent.ctxDone e :: _ => QResult.ctxErr e

/-- The client of client.go, reduced to the state QueryFirst touches: the
subscriber-channel list maintained by `Subscribe`/`Close`. -/
structure client where
  subscribers : List (Chan Msg)
deriving Repr, DecidableEq

/-- Embeds `(*client).Subscribe` (client.go lines 99-132): create a channel
with buffer depth 32, append it to the subscriber list, return it.  (The
lazily started fan-out goroutine only reads the list and is not part of the
state transition.) -/
def client.Subscribe (c : client) : client × Chan Msg :=
  let ch : Chan Msg := { buf := [], cap := 32, closed := false }
  ({ subscribers := c.subscribers ++ [ch] }, ch)

/-- Embeds the effect of `(*client).QueryFirst` (client.go lines 143-171) on
the client state, paired with the loop outcome on the given event trace: the
method subscribes, sends the query, runs the wait loop, and returns.  No
statement of the body removes the subscribed channel again on any path. -/
def client.QueryFirst (c : client) (q : Question) (evs : List QEvent) : QResult × client :=
  let p := c.Subscribe
  (queryFirstLoop q evs, p.1)

/-- A network interface as the transport sees it, together with the
environment's outcome for every OS call the transport may issue for it.
Fields `index`, `up`, `multicast` mirror `net.Interface`; `hasIPv4`/`hasIPv6`
mirror `interfaceIPVersion` (iface.go); the remaining fields are the
environment's results (true = success) for `JoinGroup`,
`SetMulticastInterface` and `WriteToUDP` on each address family. -/
structure NetIface where
  index : Nat
  up : Bool
  multicast : Bool
  hasIPv4 : Bool
  hasIPv6 : Bool
  join4ok : Bool
  join6ok : Bool
  setIf4ok : Bool
  setIf6ok : Bool
  write4ok : Bool
  write6ok : Bool
deriving Repr, DecidableEq

/-- Embeds `multicastInterfaces` (internal/transport/iface.go lines 5-20):
on an OS enumeration error, propagate it; otherwise keep exactly the
interfaces that are up and multicast-capable. -/
def multicastInterfaces (enumResult : Except String (List NetIface)) :
    Except String (List NetIface) :=
  match enumResult with
  | Except.error e => Except.error e
  | Except.ok ifaces => Except.ok (ifaces.filter (fun i => i.up && i.multicast))

/-- Embeds `Options.withDefaults` (internal/transport/options.go lines
16-29): when no explicit interface list was given, run discovery; propagate
its error; error with "no multicast interfaces available" when the filtered
list is empty; otherwise adopt it. -/
def withDefaults (joinIfaces : List NetIface)
    (enumResult : Except String (List NetIface)) : Except String (List NetIface) :=
  if joinIfaces.length = 0 then
    match multicastInterfaces enumResult with
    | Except.error e => Except.error e
    | Except.ok ifaces =>
      if ifaces.length = 0 then Except.error "no multicast interfaces available"
      else Except.ok ifaces
  else Except.ok joinIfaces

/-- The transport's socket state (options.go `type socket`): whether each
family's connection is live (conn4/conn6 non-nil in Go), the interface list,
and the per-family "no address for this family" marks keyed by interface
index. -/
structure Socket where
  conn4 : Bool
  conn6 : Bool
  ifaces : List NetIface
  ifacesNoIPv4 : List Nat
  ifacesNoIPv6 : List Nat
deriving Repr, DecidableEq

/-- The address-family bitset constants of the source
(internal/transport options: IPv4 = 0b01, IPv6 = 0b10). -/
def IPv4 : Nat := 1

/-- IPv6 bit of the address-family bitset. -/
def IPv6 : Nat := 2

/-- Both families requested. -/
def IPv4And6 : Nat := 3

/-- Embeds the join loop of `newUDP4Conn` (options.go lines 128-140) over
the interface list: a successful `JoinGroup` increments the joined count; a
failed join on an interface without an IPv4 address marks the interface in
the no-IPv4 set; a failed join on an interface that has IPv4 is logged and
skipped.  Returns the updated no-IPv4 mark list and the joined count. -/
def joinLoop4 : List NetIface → List Nat → List Nat × Nat
  | [], no4 => (no4, 0)
  | iface :: rest, no4 =>
    if iface.join4ok then
      let r := joinLoop4 rest no4
      (r.1, r.2 + 1)
    else if iface.hasIPv4 then
      joinLoop4 rest no4
    else
      joinLoop4 rest (no4 ++ [iface.index])

/-- Embeds the join loop of `newUDP6Conn` (options.go lines 172-184),
symmetric to the IPv4 one. -/
def joinLoop6 : List NetIface → List Nat → List Nat × Nat
  | [], no6 => (no6, 0)
  | iface :: rest, no6 =>
    if iface.join6ok then
      let r := joinLoop6 rest no6
      (r.1, r.2 + 1)
    else if iface.hasIPv6 then
      joinLoop6 rest no6
    else
      joinLoop6 rest (no6 ++ [iface.index])

/-- Embeds `(*socket).newUDP4Conn` (options.go lines 108-150).  `listen4` is
the environment's outcome of `net.ListenUDP("udp4", addr)` (none = success).
On listen failure the error is returned unchanged.  Otherwise the join loop
runs; if zero interfaces joined, the method returns the "no multicast group
joined" error and `conn4` is left unset; otherwise `conn4` is set live.
The TTL/loopback/control-message calls only log on failure and do not affect
the state or result. -/
def Socket.newUDP4Conn (s : Socket) (listen4 : Option String) : Socket × Option String :=
  match listen4 with
  | some e => (s, some e)
  | none =>
    let r := joinLoop4 s.ifaces s.ifacesNoIPv4
    let s1 : Socket := { s with ifacesNoIPv4 := r.1 }
    if r.2 = 0 then
      (s1, some "no multicast group joined on any interface for IPv4")
    else
      ({ s1 with conn4 := true }, none)

/-- Embeds `(*socket).newUDP6Conn` (options.go lines 152-194), symmetric to
the IPv4 constructor. -/
def Socket.newUDP6Conn (s : Socket) (listen6 : Option String) : Socket × Option String :=
  match listen6 with
  | some e => (s, some e)
  | none =>
    let r := joinLoop6 s.ifaces s.ifacesNoIPv6
    let s1 : Socket := { s with ifacesNoIPv6 := r.1 }
    if r.2 = 0 then
      (s1, some "no multicast group joined on any interface for IPv6")
    else
      ({ s1 with conn6 := true }, none)

/-- The inputs of `newSocket` together with the environment: the requested
address-family bitset and resolved interface list from `Options`, and the
outcomes of the two `net.ListenUDP` calls (none = success). -/
structure SocketEnv where
  IPVersion : Nat
  JoinIfaces : List NetIface
  listen4 : Option String
  listen6 : Option String
deriving Repr, DecidableEq

/-- The fresh socket value built at the top of `newSocket` (options.go lines
60-64). -/
def initSocket (opts : SocketEnv) : Socket :=
  { conn4 := false, conn6 := false, ifaces := opts.JoinIfaces
  , ifacesNoIPv4 := [], ifacesNoIPv6 := [] }

/-- The IPv4 leg of `newSocket` (options.go lines 69-71): run
`newUDP4Conn` when the IPv4 bit is requested, otherwise leave the socket
untouched with no error (`err4` stays nil). -/
def famResult4 (opts : SocketEnv) : Socket × Option String :=
  if opts.IPVersion.land IPv4 ≠ 0 then Socket.newUDP4Conn (initSocket opts) opts.listen4
  else (initSocket opts, none)

/-- The IPv6 leg of `newSocket` (options.go lines 72-74), run on the socket
state left by the IPv4 leg. -/
def famResult6 (opts : SocketEnv) : Socket × Option String :=
  if opts.IPVersion.land IPv6 ≠ 0 then Socket.newUDP6Conn (famResult4 opts).1 opts.listen6
  else ((famResult4 opts).1, none)

/-- Embeds `newSocket` (options.go lines 59-91): both legs run; only when
both recorded errors are non-nil does construction fail, returning
`errors.Join(err4, err6)`; otherwise the socket is returned (a single
failure is only logged). -/
def newSocket (opts : SocketEnv) : Except String Socket :=
  match (famResult4 opts).2, (famResult6 opts).2 with
  | some e4, some e6 => Except.error (e4 ++ "\x0a" ++ e6)
  | _, _ => Except.ok (famResult6 opts).1

/-- The success condition for one interface in the IPv4 multicast fan-out
(options.go lines 225-242): not marked no-IPv4, `SetMulticastInterface`
succeeded, and the write succeeded. -/
def sendOK4 (s : Socket) (iface : NetIface) : Bool :=
  !(s.ifacesNoIPv4.contains iface.index) && iface.setIf4ok && iface.write4ok

/-- The success condition for one interface in the IPv6 multicast fan-out
(options.go lines 246-263). -/
def sendOK6 (s : Socket) (iface : NetIface) : Bool :=
  !(s.ifacesNoIPv6.contains iface.index) && iface.setIf6ok && iface.write6ok

/-- Embeds the IPv4 fan-out loop of `(*socket).multicast` (options.go lines
225-242): interfaces marked no-IPv4 are skipped; a failure to select the
outgoing interface is logged and skipped; a write failure is logged and
skipped; a success increments `sent4`.  Returns the sent count. -/
def multicastLoop4 (s : Socket) : List NetIface → Nat
  | [] => 0
  | iface :: rest =>
    if s.ifacesNoIPv4.contains iface.index then multicastLoop4 s rest
    else if !iface.setIf4ok then multicastLoop4 s rest
    else if !iface.write4ok then multicastLoop4 s rest
    else multicastLoop4 s rest + 1

/-- Embeds the IPv6 fan-out loop of `(*socket).multicast` (options.go lines
246-263), symmetric to the IPv4 loop. -/
def multicastLoop6 (s : Socket) : List NetIface → Nat
  | [] => 0
  | iface :: rest =>
    if s.ifacesNoIPv6.contains iface.index then multicastLoop6 s rest
    else if !iface.setIf6ok then multicastLoop6 s rest
    else if !iface.write6ok then multicastLoop6 s rest
    else multicastLoop6 s rest + 1

/-- Embeds `(*socket).multicast` (options.go lines 221-273): each active
family's loop runs over all interfaces; the call errs exactly when
`sent4 == 0 && sent6 == 0`. -/
def Socket.multicast (s : Socket) : Option String :=
  let sent4 := if s.conn4 then multicastLoop4 s s.ifaces else 0
  let sent6 := if s.conn6 then multicastLoop6 s s.ifaces else 0
  if sent4 == 0 && sent6 == 0 then some "no message sent on either IPv4 or IPv6" else none

/-- One read outcome of the receive loop's blocking `ReadFromUDP`: the
socket-closed error (`net.ErrClosed`), any other read error, or a datagram's
bytes. -/
inductive ReadEvent where
  | closedErr
  | readErr (e : String)
  | datagram (b : List Nat)
deriving Repr, DecidableEq

/-- Embeds `recvLoop` (internal/transport/mdns.go lines 55-85) over a finite
trace of read outcomes.  `unpack` is the external codec boundary
(`msg.Unpack`), with `none` a decode failure.  The socket-closed error
returns; any other read error logs and continues; a decode failure logs and
discards the datagram; a decoded message is enqueued non-blockingly onto the
message channel (dropped when full).  The Bool of the result records whether
the loop returned (true) or is still running after consuming the trace. -/
def recvLoop (unpack : List Nat → Option Msg) (msgCh : Chan Msg) :
    List ReadEvent → Chan Msg × Bool
  | [] => (msgCh, false)
  | ReadEvent.closedErr :: _ => (msgCh, true)
  | ReadEvent.readErr _ :: rest => recvLoop unpack msgCh rest
  | ReadEvent.datagram b :: rest =>
    match unpack b with
    | none => recvLoop unpack msgCh rest
    | some m => recvLoop unpack (trySend msgCh m) rest

/-- Helper: `firstMatch` distributes over list append, first segment wins. -/
theorem firstMatch_append (q : Question) (l1 l2 : List RR) :
    firstMatch q (l1 ++ l2) =
      match firstMatch q l1 with
      | some rr => some rr
      | none => firstMatch q l2 := by
  induction l1 with
  | nil => simp [firstMatch]
  | cons a t ih =>
    by_cases h : rrMatches q a
    · simp [firstMatch, h]
    · simp [firstMatch, h, ih]

/-- Helper: a record returned by `firstMatch` satisfies the match predicate. -/
theorem firstMatch_all (q : Question) (l : List RR) :
    (firstMatch q l).all (rrMatches q) = true := by
  induction l with
  | nil => simp [firstMatch]
  | cons a t ih =>
    by_cases h : rrMatches q a
    · simp [firstMatch, h]
    · simp [firstMatch, h, ih]

/-- C3: over a trace of delivered messages, QueryFirst's loop returns exactly
the first resource record, in arrival order over the flattened answer
sections, that matches the question, and the match predicate it uses is
exact string equality on the name, exact type, and exact class; a record
failing any of the three is never the one returned (the returned option
always satisfies the predicate), and no scoring beyond first-in-order is
applied. -/
theorem queryFirstLoop_first_exact_match (q : Question) (msgs : List Msg) :
    (queryFirstLoop q (msgs.map QEvent.msg) =
      match firstMatch q (msgs.map Msg.Answer).flatten with
      | some rr => QResult.answer rr
      | none => QResult.pending)
    ∧ (∀ rr : RR, rrMatches q rr = true ↔
        (rr.Header.Name = q.Name ∧ rr.Header.Rrtype = q.Qtype ∧ rr.Header.Class = q.Qclass))
    ∧ (∀ l : List RR, (firstMatch q l).all (rrMatches q) = true) := by
  refine ⟨?_, ?_, fun l => firstMatch_all q l⟩
  · induction msgs with
    | nil => simp [queryFirstLoop, firstMatch]
    | cons m rest ih =>
      have key : firstMatch q (m.Answer ++ (List.map Msg.Answer rest).flatten)
          = match firstMatch q m.Answer with
            | some rr => some rr
            | none => firstMatch q ((List.map Msg.Answer rest).flatten) :=
        firstMatch_append q _ _
      cases h : firstMatch q m.Answer with
      | some rr => simp [queryFirstLoop, h, key]
      | none => simp [queryFirstLoop, h, key, ih]
  · intro rr
    simp [rrMatches, Bool.and_eq_true, beq_iff_eq, and_assoc]

/-- C4: when no delivered message contains a matching answer, the loop's
outcome is decided by the terminal event and never left pending: a context
deadline/cancellation event yields the context's error, and observing the
subscriber channel closed (the client closed concurrently) yields the
distinct "client closed" outcome. -/
theorem queryFirstLoop_terminal_outcomes (q : Question) (msgs : List Msg) (e : String)
    (hno : firstMatch q (msgs.map Msg.Answer).flatten = none) :
    queryFirstLoop q (msgs.map QEvent.msg ++ [QEvent.ctxDone e]) = QResult.ctxErr e
    ∧ queryFirstLoop q (msgs.map QEvent.msg ++ [QEvent.closed]) = QResult.clientClosed
    ∧ QResult.ctxErr e ≠ QResult.clientClosed := by
  induction msgs with
  | nil => exact ⟨rfl, rfl, by simp⟩
  | cons m rest ih =>
    rw [List.map_cons, List.flatten_cons, firstMatch_append] at hno
    cases h : firstMatch q m.Answer with
    | some rr => simp [h] at hno
    | none =>
      rw [h] at hno
      have := ih hno
      exact ⟨by simp [queryFirstLoop, h, this.1],
             by simp [queryFirstLoop, h, this.2.1],
             this.2.2⟩

/-- C4 witness: a concrete non-matching message followed by each terminal
event, evaluated. -/
theorem queryFirstLoop_terminal_outcomes_witness :
    firstMatch (⟨"host.local.", 1, 1⟩ : Question)
        (([(⟨[⟨⟨"other.local.", 1, 1⟩⟩]⟩ : Msg)].map Msg.Answer)).flatten = none
    ∧ (queryFirstLoop ⟨"host.local.", 1, 1⟩
          ([(⟨[⟨⟨"other.local.", 1, 1⟩⟩]⟩ : Msg)].map QEvent.msg
            ++ [QEvent.ctxDone "context deadline exceeded"])
        = QResult.ctxErr "context deadline exceeded"
      ∧ queryFirstLoop ⟨"host.local.", 1, 1⟩
          ([(⟨[⟨⟨"other.local.", 1, 1⟩⟩]⟩ : Msg)].map QEvent.msg ++ [QEvent.closed])
        = QResult.clientClosed
      ∧ QResult.ctxErr "context deadline exceeded" ≠ QResult.clientClosed) :=
  ⟨by decide,
   queryFirstLoop_terminal_outcomes ⟨"host.local.", 1, 1⟩
     [(⟨[⟨⟨"other.local.", 1, 1⟩⟩]⟩ : Msg)] "context deadline exceeded" (by decide)⟩

/-- C5: publishing on a closed broadcaster is a no-op — the hub state,
including every queue it still references, is returned unchanged, so no
subscriber queue ever observes a message published after close (queues
created after close are never registered, and the cleared subscriber list is
untouched). -/
theorem broadcast_after_close_noop {T : Type} (b : broadcaster T) (msg : T)
    (h : b.closed = true) :
    broadcaster.broadcast b msg = b := by
  simp [broadcaster.broadcast, h]

/-- C5 witness: a concrete closed hub, with a payload, left unchanged. -/
theorem broadcast_after_close_noop_witness :
    (⟨[], true⟩ : broadcaster Nat).closed = true
    ∧ broadcaster.broadcast (⟨[], true⟩ : broadcaster Nat) 5 = ⟨[], true⟩ :=
  ⟨rfl, broadcast_after_close_noop ⟨[], true⟩ 5 rfl⟩

/-- C6: subscribing on a closed broadcaster returns immediately, without an
error, a queue that is already closed and empty (and with no buffer
capacity), and leaves the hub unchanged — the queue is never registered. -/
theorem subscribe_after_close_closed_empty {T : Type} (b : broadcaster T)
    (h : b.closed = true) :
    broadcaster.subscribe b = (b, { buf := [], cap := 0, closed := true }) := by
  simp [broadcaster.subscribe, h]

/-- C6 witness: subscribing on a concrete closed hub. -/
theorem subscribe_after_close_closed_empty_witness :
    (⟨[], true⟩ : broadcaster Nat).closed = true
    ∧ broadcaster.subscribe (⟨[], true⟩ : broadcaster Nat)
        = (⟨[], true⟩, { buf := [], cap := 0, closed := true }) :=
  ⟨rfl, subscribe_after_close_closed_empty ⟨[], true⟩ rfl⟩

/-- C8 counterexample: a QueryFirst call on a client with no subscribers,
terminated by the deadline, returns with its subscriber queue still
registered (the subscriber list has length 1, not 0): the subscription is
not released when the call returns. -/
theorem queryFirst_subscription_retained :
    ((client.QueryFirst ⟨[]⟩ ⟨"host.local.", 1, 1⟩
        [QEvent.ctxDone "context deadline exceeded"]).2.subscribers.length = 1)
    ∧ (client.QueryFirst ⟨[]⟩ ⟨"host.local.", 1, 1⟩
        [QEvent.ctxDone "context deadline exceeded"]).1
        = QResult.ctxErr "context deadline exceeded" := by
  constructor <;> rfl

/-- C8 amended: on every outcome, QueryFirst returns with exactly the
subscriber queue it created appended to the client's subscriber list — the
queue is never removed (the broadcaster offers no unsubscribe operation and
QueryFirst performs none), so it remains registered until the client is
closed. -/
theorem queryFirst_appends_subscriber (c : client) (q : Question) (evs : List QEvent) :
    (client.QueryFirst c q evs).2.subscribers
      = c.subscribers ++ [{ buf := [], cap := 32, closed := false }] := by
  rfl

/-- Helper: the IPv4 constructor never changes the interface list. -/
theorem newUDP4Conn_ifaces (s : Socket) (b : Option String) :
    (Socket.newUDP4Conn s b).1.ifaces = s.ifaces := by
  cases b with
  | some e => rfl
  | none => simp only [Socket.newUDP4Conn]; split <;> rfl

/-- Helper: the IPv4 constructor never touches the IPv6 no-address marks. -/
theorem newUDP4Conn_no6 (s : Socket) (b : Option String) :
    (Socket.newUDP4Conn s b).1.ifacesNoIPv6 = s.ifacesNoIPv6 := by
  cases b with
  | some e => rfl
  | none => simp only [Socket.newUDP4Conn]; split <;> rfl

/-- Helper: the IPv4 constructor never touches the IPv6 connection. -/
theorem newUDP4Conn_conn6 (s : Socket) (b : Option String) :
    (Socket.newUDP4Conn s b).1.conn6 = s.conn6 := by
  cases b with
  | some e => rfl
  | none => simp only [Socket.newUDP4Conn]; split <;> rfl

/-- Helper: the IPv4 constructor errs exactly on a listen failure or a zero
joined count, mirroring its two return-error statements. -/
theorem newUDP4Conn_err_iff (s : Socket) (b : Option String) :
    (Socket.newUDP4Conn s b).2 = none
      ↔ (b = none ∧ (joinLoop4 s.ifaces s.ifacesNoIPv4).2 ≠ 0) := by
  cases b with
  | some e => simp [Socket.newUDP4Conn]
  | none => simp only [Socket.newUDP4Conn]; split <;> simp_all

/-- Helper: the IPv4 connection comes up exactly when the constructor
returned no error (and stays as it was otherwise). -/
theorem newUDP4Conn_conn4 (s : Socket) (b : Option String) :
    (Socket.newUDP4Conn s b).1.conn4
      = ((Socket.newUDP4Conn s b).2.isNone || s.conn4) := by
  cases b with
  | some e => simp [Socket.newUDP4Conn]
  | none => simp only [Socket.newUDP4Conn]; split <;> simp

/-- Helper: the IPv6 constructor never changes the interface list. -/
theorem newUDP6Conn_ifaces (s : Socket) (b : Option String) :
    (Socket.newUDP6Conn s b).1.ifaces = s.ifaces := by
  cases b with
  | some e => rfl
  | none => simp only [Socket.newUDP6Conn]; split <;> rfl

/-- Helper: the IPv6 constructor never touches the IPv4 connection. -/
theorem newUDP6Conn_conn4 (s : Socket) (b : Option String) :
    (Socket.newUDP6Conn s b).1.conn4 = s.conn4 := by
  cases b with
  | some e => rfl
  | none => simp only [Socket.newUDP6Conn]; split <;> rfl

/-- Helper: the IPv6 constructor errs exactly on a listen failure or a zero
joined count. -/
theorem newUDP6Conn_err_iff (s : Socket) (b : Option String) :
    (Socket.newUDP6Conn s b).2 = none
      ↔ (b = none ∧ (joinLoop6 s.ifaces s.ifacesNoIPv6).2 ≠ 0) := by
  cases b with
  | some e => simp [Socket.newUDP6Conn]
  | none => simp only [Socket.newUDP6Conn]; split <;> simp_all

/-- Helper: the IPv6 connection comes up exactly when the constructor
returned no error. -/
theorem newUDP6Conn_conn6 (s : Socket) (b : Option String) :
    (Socket.newUDP6Conn s b).1.conn6
      = ((Socket.newUDP6Conn s b).2.isNone || s.conn6) := by
  cases b with
  | some e => simp [Socket.newUDP6Conn]
  | none => simp only [Socket.newUDP6Conn]; split <;> simp

/-- Helper: state and error of the IPv4 leg of newSocket, in terms of the
requested family bits and the environment. -/
theorem famResult4_state (opts : SocketEnv) :
    (famResult4 opts).1.ifaces = opts.JoinIfaces
    ∧ (famResult4 opts).1.ifacesNoIPv6 = []
    ∧ (famResult4 opts).1.conn6 = false
    ∧ ((famResult4 opts).1.conn4 = true ↔
        (opts.IPVersion.land IPv4 ≠ 0 ∧ opts.listen4 = none
          ∧ (joinLoop4 opts.JoinIfaces []).2 ≠ 0))
    ∧ ((famResult4 opts).2 = none ↔
        (opts.IPVersion.land IPv4 = 0 ∨ (opts.listen4 = none
          ∧ (joinLoop4 opts.JoinIfaces []).2 ≠ 0))) := by
  by_cases hreq : opts.IPVersion.land IPv4 ≠ 0
  · have hi := newUDP4Conn_ifaces (initSocket opts) opts.listen4
    have hn6 := newUDP4Conn_no6 (initSocket opts) opts.listen4
    have hc6 := newUDP4Conn_conn6 (initSocket opts) opts.listen4
    have hc4 := newUDP4Conn_conn4 (initSocket opts) opts.listen4
    have herr := newUDP4Conn_err_iff (initSocket opts) opts.listen4
    simp only [initSocket] at hi hn6 hc6 hc4 herr
    simp only [famResult4, if_pos hreq, initSocket]
    refine ⟨hi, hn6, hc6, ?_, ?_⟩
    · rw [hc4]
      simp [Option.isNone_iff_eq_none, herr, hreq, hc6]
    · simp [herr, hreq]
  · simp only [famResult4, if_neg hreq, initSocket]
    simp at hreq
    simp [hreq]

/-- Helper: state and error of the IPv6 leg of newSocket. -/
theorem famResult6_state (opts : SocketEnv) :
    (famResult6 opts).1.conn4 = (famResult4 opts).1.conn4
    ∧ ((famResult6 opts).1.conn6 = true ↔
        (opts.IPVersion.land IPv6 ≠ 0 ∧ opts.listen6 = none
          ∧ (joinLoop6 opts.JoinIfaces []).2 ≠ 0))
    ∧ ((famResult6 opts).2 = none ↔
        (opts.IPVersion.land IPv6 = 0 ∨ (opts.listen6 = none
          ∧ (joinLoop6 opts.JoinIfaces []).2 ≠ 0))) := by
  obtain ⟨hi, hn6, hc6, _, _⟩ := famResult4_state opts
  by_cases hreq : opts.IPVersion.land IPv6 ≠ 0
  · have hcc4 := newUDP6Conn_conn4 (famResult4 opts).1 opts.listen6
    have hcc6 := newUDP6Conn_conn6 (famResult4 opts).1 opts.listen6
    have herr := newUDP6Conn_err_iff (famResult4 opts).1 opts.listen6
    rw [hi, hn6] at herr
    rw [hc6] at hcc6
    simp only [famResult6, if_pos hreq]
    refine ⟨hcc4, ?_, ?_⟩
    · rw [hcc6]
      simp [Option.isNone_iff_eq_none, herr, hreq]
    · simp [herr, hreq]
  · simp only [famResult6, if_neg hreq]
    simp at hreq
    simp [hreq, hc6]

/-- Helper: newSocket succeeds exactly when at least one leg recorded no
error, mirroring the `err4 != nil && err6 != nil` check. -/
theorem newSocket_isOk_iff (opts : SocketEnv) :
    ((newSocket opts).isOk = true
      ↔ ((famResult4 opts).2 = none ∨ (famResult6 opts).2 = none))
    ∧ (∀ s : Socket, newSocket opts = Except.ok s → s = (famResult6 opts).1) := by
  constructor
  · unfold newSocket
    cases he4 : (famResult4 opts).2 <;> cases he6 : (famResult6 opts).2 <;>
      simp [Except.isOk, Except.toBool]
  · intro s hs
    unfold newSocket at hs
    cases he4 : (famResult4 opts).2 <;> cases he6 : (famResult6 opts).2 <;>
      rw [he4, he6] at hs <;> simp_all

/-- C1 counterexample: with only the IPv4 family requested and its socket
bind failing (the IPv6 leg never runs, so its error slot stays nil),
construction nevertheless succeeds — refuting, at this input, that
construction succeeds if and only if at least one requested family's bind
succeeds (here no requested family's bind succeeded, and no socket is
active). -/
theorem newSocket_singleFamily_bindFail_succeeds :
    ((newSocket ⟨IPv4,
        [⟨1, true, true, true, true, true, true, true, true, true, true⟩],
        some "listen udp4: bind failed", none⟩).isOk = true)
    ∧ ¬((IPv4.land IPv4 ≠ 0 ∧ (some "listen udp4: bind failed" : Option String) = none)
        ∨ (IPv4.land IPv6 ≠ 0 ∧ (none : Option String) = none))
    ∧ (newSocket ⟨IPv4,
        [⟨1, true, true, true, true, true, true, true, true, true, true⟩],
        some "listen udp4: bind failed", none⟩
        = Except.ok ⟨false, false,
            [⟨1, true, true, true, true, true, true, true, true, true, true⟩], [], []⟩) := by
  refine ⟨by rfl, by decide, by rfl⟩

/-- C1 (amended): construction fails, joining the two per-family errors,
exactly when both requested legs recorded an error — where a family that is
not requested records no error, and a requested family's leg errs when its
bind fails or when zero interfaces join its group.  Consequently a
single-family request never fails construction (its failure merely leaves no
active socket), and on success each family's socket is active exactly when
that family was requested, its bind succeeded, and at least one interface
joined. -/
theorem newSocket_characterization (opts : SocketEnv) :
    ((newSocket opts).isOk = true ↔
      ((opts.IPVersion.land IPv4 = 0 ∨ (opts.listen4 = none
          ∧ (joinLoop4 opts.JoinIfaces []).2 ≠ 0))
        ∨ (opts.IPVersion.land IPv6 = 0 ∨ (opts.listen6 = none
          ∧ (joinLoop6 opts.JoinIfaces []).2 ≠ 0))))
    ∧ (∀ s : Socket, newSocket opts = Except.ok s →
        ((s.conn4 = true ↔ (opts.IPVersion.land IPv4 ≠ 0 ∧ opts.listen4 = none
            ∧ (joinLoop4 opts.JoinIfaces []).2 ≠ 0))
          ∧ (s.conn6 = true ↔ (opts.IPVersion.land IPv6 ≠ 0 ∧ opts.listen6 = none
            ∧ (joinLoop6 opts.JoinIfaces []).2 ≠ 0)))) := by
  obtain ⟨hok, hval⟩ := newSocket_isOk_iff opts
  obtain ⟨_, _, _, hc4, he4⟩ := famResult4_state opts
  obtain ⟨h64, hc6, he6⟩ := famResult6_state opts
  constructor
  · rw [hok, he4, he6]
  · intro s hs
    have := hval s hs
    subst this
    exact ⟨by rw [h64, hc4], by rw [hc6]⟩

/-- C1 witness: both families requested, the IPv4 leg fails with zero joins
while the IPv6 leg succeeds — construction succeeds with only the IPv6
socket active. -/
theorem newSocket_characterization_witness :
    (newSocket ⟨IPv4And6,
        [⟨1, true, true, true, true, false, true, true, true, true, true⟩], none, none⟩
      = Except.ok ⟨false, true,
          [⟨1, true, true, true, true, false, true, true, true, true, true⟩], [], []⟩)
    ∧ (((false : Bool) = true ↔ (IPv4And6.land IPv4 ≠ 0 ∧ (none : Option String) = none
          ∧ (joinLoop4 [⟨1, true, true, true, true, false, true, true, true, true, true⟩] []).2 ≠ 0))
      ∧ ((true : Bool) = true ↔ (IPv4And6.land IPv6 ≠ 0 ∧ (none : Option String) = none
          ∧ (joinLoop6 [⟨1, true, true, true, true, false, true, true, true, true, true⟩] []).2 ≠ 0))) :=
  ⟨by rfl,
   (newSocket_characterization
      ⟨IPv4And6, [⟨1, true, true, true, true, false, true, true, true, true, true⟩],
        none, none⟩).2
     ⟨false, true, [⟨1, true, true, true, true, false, true, true, true, true, true⟩], [], []⟩
     (by rfl)⟩

/-- Helper: the IPv4 fan-out loop counts exactly the interfaces whose whole
select-and-write sequence succeeds. -/
theorem multicastLoop4_eq_filter (s : Socket) (l : List NetIface) :
    multicastLoop4 s l = (l.filter (sendOK4 s)).length := by
  induction l with
  | nil => rfl
  | cons iface rest ih =>
    by_cases h1 : iface.index ∈ s.ifacesNoIPv4 <;>
      by_cases h2 : iface.setIf4ok <;>
        by_cases h3 : iface.write4ok <;>
          simp [multicastLoop4, List.filter_cons, sendOK4, h1, h2, h3, ih]

/-- Helper: the IPv6 fan-out loop counts exactly the interfaces whose whole
select-and-write sequence succeeds. -/
theorem multicastLoop6_eq_filter (s : Socket) (l : List NetIface) :
    multicastLoop6 s l = (l.filter (sendOK6 s)).length := by
  induction l with
  | nil => rfl
  | cons iface rest ih =>
    by_cases h1 : iface.index ∈ s.ifacesNoIPv6 <;>
      by_cases h2 : iface.setIf6ok <;>
        by_cases h3 : iface.write6ok <;>
          simp [multicastLoop6, List.filter_cons, sendOK6, h1, h2, h3, ih]

/-- C2: the multicast send errs exactly when, on each family, either the
family has no active socket or no interface's select-and-write sequence
succeeded — i.e. overall failure is reported only when no interface on
either active family succeeded; and a per-interface failure (marked
no-address, failed interface selection, or failed write) merely skips that
interface: each step of the fan-out loop contributes its own interface's
outcome and always proceeds to the remaining interfaces. -/
theorem multicast_error_iff (s : Socket) :
    ((Socket.multicast s).isSome = true ↔
      ((s.conn4 = false ∨ s.ifaces.filter (sendOK4 s) = [])
        ∧ (s.conn6 = false ∨ s.ifaces.filter (sendOK6 s) = [])))
    ∧ (∀ (iface : NetIface) (rest : List NetIface),
        multicastLoop4 s (iface :: rest)
          = (if sendOK4 s iface then 1 else 0) + multicastLoop4 s rest)
    ∧ (∀ (iface : NetIface) (rest : List NetIface),
        multicastLoop6 s (iface :: rest)
          = (if sendOK6 s iface then 1 else 0) + multicastLoop6 s rest) := by
  refine ⟨?_, ?_, ?_⟩
  · have e4 := multicastLoop4_eq_filter s s.ifaces
    have e6 := multicastLoop6_eq_filter s s.ifaces
    cases hc4 : s.conn4 <;> cases hc6 : s.conn6 <;>
      simp [Socket.multicast, hc4, hc6, e4, e6, List.length_eq_zero]
  · intro iface rest
    by_cases h1 : iface.index ∈ s.ifacesNoIPv4 <;>
      by_cases h2 : iface.setIf4ok <;>
        by_cases h3 : iface.write4ok <;>
          simp [multicastLoop4, sendOK4, h1, h2, h3, Nat.add_comm]
  · intro iface rest
    by_cases h1 : iface.index ∈ s.ifacesNoIPv6 <;>
      by_cases h2 : iface.setIf6ok <;>
        by_cases h3 : iface.write6ok <;>
          simp [multicastLoop6, sendOK6, h1, h2, h3, Nat.add_comm]

/-- C7 counterexample: a socket whose IPv4 bind succeeded but where the only
interface's IPv4 join fails (the interface does have an IPv4 address, so it
is not marked) leaves the joined count at zero — and `newUDP4Conn` then
returns an error with the IPv4 connection left inactive, rather than keeping
the family active as a recoverable condition. -/
theorem newUDP4Conn_zero_joins_fails :
    (Socket.newUDP4Conn
        ⟨false, false, [⟨1, true, true, true, true, false, false, true, true, true, true⟩], [], []⟩
        none).2
      = some "no multicast group joined on any interface for IPv4"
    ∧ (Socket.newUDP4Conn
        ⟨false, false, [⟨1, true, true, true, true, false, false, true, true, true, true⟩], [], []⟩
        none).1.conn4 = false := by
  exact ⟨rfl, rfl⟩

/-- C7 (amended): per family — when a family's bind succeeds but zero
interfaces join the multicast group for that family, that family's
constructor returns the "no multicast group joined" error and does not
activate that family's connection, regardless of what happens on the other
family: a zero-join family is treated as failed, not as a recoverable
active family. -/
theorem newUDPConn_zero_joins_error (s : Socket) :
    ((joinLoop4 s.ifaces s.ifacesNoIPv4).2 = 0 →
      (Socket.newUDP4Conn s none).2
          = some "no multicast group joined on any interface for IPv4"
      ∧ (Socket.newUDP4Conn s none).1.conn4 = s.conn4)
    ∧ ((joinLoop6 s.ifaces s.ifacesNoIPv6).2 = 0 →
      (Socket.newUDP6Conn s none).2
          = some "no multicast group joined on any interface for IPv6"
      ∧ (Socket.newUDP6Conn s none).1.conn6 = s.conn6) := by
  constructor
  · intro h4
    constructor <;> simp [Socket.newUDP4Conn, h4]
  · intro h6
    constructor <;> simp [Socket.newUDP6Conn, h6]

/-- C7 witness: the two mixed cases, at concrete sockets.  First a socket
whose single dual-stack interface fails its IPv4 join (so the IPv4 joined
count is zero) while its IPv6 join succeeds; then the symmetric socket whose
interface fails only its IPv6 join.  Each family's conclusion follows from
its own zero-join hypothesis alone. -/
theorem newUDPConn_zero_joins_error_witness :
    ((joinLoop4
        [⟨2, true, true, true, true, false, true, true, true, true, true⟩] []).2 = 0
      ∧ (joinLoop6
        [⟨2, true, true, true, true, false, true, true, true, true, true⟩] []).2 ≠ 0
      ∧ (Socket.newUDP4Conn
          ⟨false, false, [⟨2, true, true, true, true, false, true, true, true, true, true⟩], [], []⟩
          none).2
        = some "no multicast group joined on any interface for IPv4"
      ∧ (Socket.newUDP4Conn
          ⟨false, false, [⟨2, true, true, true, true, false, true, true, true, true, true⟩], [], []⟩
          none).1.conn4 = false)
    ∧ ((joinLoop6
        [⟨3, true, true, true, true, true, false, true, true, true, true⟩] []).2 = 0
      ∧ (joinLoop4
        [⟨3, true, true, true, true, true, false, true, true, true, true⟩] []).2 ≠ 0
      ∧ (Socket.newUDP6Conn
          ⟨false, false, [⟨3, true, true, true, true, true, false, true, true, true, true⟩], [], []⟩
          none).2
        = some "no multicast group joined on any interface for IPv6"
      ∧ (Socket.newUDP6Conn
          ⟨false, false, [⟨3, true, true, true, true, true, false, true, true, true, true⟩], [], []⟩
          none).1.conn6 = false) :=
  ⟨⟨by decide, by decide,
    (newUDPConn_zero_joins_error
      ⟨false, false, [⟨2, true, true, true, true, false, true, true, true, true, true⟩], [], []⟩).1
      (by decide)⟩,
   ⟨by decide, by decide,
    (newUDPConn_zero_joins_error
      ⟨false, false, [⟨3, true, true, true, true, true, false, true, true, true, true⟩], [], []⟩).2
      (by decide)⟩⟩

/-- C9 counterexample: with a successful OS enumeration whose only interface
is down, discovery returns an empty list without error, yet the construction
path (`withDefaults` with no explicit interface list) turns that empty
result into the "no multicast interfaces available" error — an empty result
is an error there, refuting that the path fails only on OS-level
enumeration errors. -/
theorem withDefaults_empty_enumeration_errors :
    multicastInterfaces
        (Except.ok [(⟨1, false, true, true, true, true, true, true, true, true, true⟩ : NetIface)])
      = Except.ok []
    ∧ withDefaults []
        (Except.ok [(⟨1, false, true, true, true, true, true, true, true, true, true⟩ : NetIface)])
      = Except.error "no multicast interfaces available" := by
  exact ⟨rfl, rfl⟩

/-- C9 (amended): interface discovery itself fails exactly when the OS
enumeration fails (filtering to up, multicast-capable interfaces never adds
an error), and the socket constructors keep every interface in the list
(marking rather than removing incapable ones); but the construction path
additionally errors when no explicit interface was given and the discovered
list is empty. -/
theorem interface_discovery_characterization (ji : List NetIface)
    (enumResult : Except String (List NetIface)) :
    ((multicastInterfaces enumResult).isOk = enumResult.isOk)
    ∧ ((withDefaults ji enumResult).isOk = true ↔
        (ji.length ≠ 0 ∨ ∃ l, enumResult = Except.ok l
          ∧ (l.filter (fun i => i.up && i.multicast)).length ≠ 0))
    ∧ (∀ (s : Socket) (b : Option String), (Socket.newUDP4Conn s b).1.ifaces = s.ifaces)
    ∧ (∀ (s : Socket) (b : Option String), (Socket.newUDP6Conn s b).1.ifaces = s.ifaces) := by
  refine ⟨?_, ?_, newUDP4Conn_ifaces, newUDP6Conn_ifaces⟩
  · cases enumResult <;> simp [multicastInterfaces, Except.isOk, Except.toBool]
  · by_cases hj : ji.length = 0
    · cases enumResult with
      | error e =>
        have hw : withDefaults ji (Except.error e) = Except.error e := by
          simp [withDefaults, hj, multicastInterfaces]
        rw [hw]
        constructor
        · intro h; simp [Except.isOk, Except.toBool] at h
        · rintro (h | ⟨l2, hl2, _⟩)
          · exact absurd hj h
          · simp at hl2
      | ok l =>
        by_cases hf : (l.filter (fun i => i.up && i.multicast)).length = 0
        · have hw : withDefaults ji (Except.ok l)
              = Except.error "no multicast interfaces available" := by
            simp [withDefaults, hj, multicastInterfaces, hf]
          rw [hw]
          constructor
          · intro h; simp [Except.isOk, Except.toBool] at h
          · rintro (h | ⟨l2, hl2, hlen⟩)
            · exact absurd hj h
            · injection hl2 with h2
              subst h2
              exact absurd hf hlen
        · have hw : withDefaults ji (Except.ok l)
              = Except.ok (l.filter (fun i => i.up && i.multicast)) := by
            simp [withDefaults, hj, multicastInterfaces, hf]
          rw [hw]
          constructor
          · intro _; exact Or.inr ⟨l, rfl, hf⟩
          · intro _; rfl
    · cases enumResult with
      | error e =>
        have hw : withDefaults ji (Except.error e) = Except.ok ji := by
          simp [withDefaults, hj]
        rw [hw]
        constructor
        · intro _; exact Or.inl hj
        · intro _; rfl
      | ok l =>
        have hw : withDefaults ji (Except.ok l) = Except.ok ji := by
          simp [withDefaults, hj]
        rw [hw]
        constructor
        · intro _; exact Or.inl hj
        · intro _; rfl

/-- C10: the receive loop returns exactly when a read yields the
socket-closed error — over any finite trace of read outcomes, the loop has
returned if and only if the trace contains the closed error; on any other
read error the loop proceeds to the next read unchanged, and a datagram
either fails to decode (discarded) or is enqueued non-blockingly, the loop
continuing either way. -/
theorem recvLoop_terminates_iff_closed (unpack : List Nat → Option Msg)
    (msgCh : Chan Msg) (evs : List ReadEvent) :
    ((recvLoop unpack msgCh evs).2 = true ↔ ReadEvent.closedErr ∈ evs)
    ∧ (∀ (ch : Chan Msg) (e : String) (rest : List ReadEvent),
        recvLoop unpack ch (ReadEvent.readErr e :: rest) = recvLoop unpack ch rest)
    ∧ (∀ (ch : Chan Msg) (b : List Nat) (rest : List ReadEvent),
        recvLoop unpack ch (ReadEvent.datagram b :: rest)
          = recvLoop unpack
              (match unpack b with | none => ch | some m => trySend ch m) rest) := by
  refine ⟨?_, fun ch e rest => rfl, fun ch b rest => ?_⟩
  · induction evs generalizing msgCh with
    | nil => simp [recvLoop]
    | cons ev rest ih =>
      cases ev with
      | closedErr => simp [recvLoop]
      | readErr e => simp [recvLoop, ih]
      | datagram b =>
        cases h : unpack b with
        | none => simp [recvLoop, h, ih]
        | some m => simp [recvLoop, h, ih]
  · cases h : unpack b <;> simp [recvLoop, h]
